import Mathlib

/-
Verification of the ChessCoach MCTS core against its specification.

The development shallowly embeds the data model and operations of the
search-tree subsystem (SelfPlay.h, Game.h, Config.cpp, PythonNetwork.cpp).
Machine floats are modelled by rationals, machine integers by ℤ/ℕ with
explicit wrapping where overflow matters, and C++ std::optional by Option.
Where only a declaration is present in the sources, the definition is
modelled from the specification and says so in its doc comment.
-/

set_option maxRecDepth 4096

namespace ChessCoach

/-- Constant CHESSCOACH_VALUE_WIN from Game.h: 1.0f. -/
def CHESSCOACH_VALUE_WIN : ℚ := 1

/-- Constant CHESSCOACH_VALUE_DRAW from Game.h: 0.5f. -/
def CHESSCOACH_VALUE_DRAW : ℚ := 1 / 2

/-- Constant CHESSCOACH_VALUE_LOSE from Game.h: 0.0f. -/
def CHESSCOACH_VALUE_LOSE : ℚ := 0

/-- Wrap an integer into the range of a C++ int8_t, the representation
type of TerminalValue's payload (std::optional of int8_t). -/
def int8wrap (n : ℤ) : ℤ := (n + 128) % 256 - 128

/-- TerminalValue from SelfPlay.h: a std::optional of int8_t. `none` is a
default-constructed (non-terminal) value. -/
structure TerminalValue where
  val : Option ℤ
deriving DecidableEq

namespace TerminalValue

/-- Encoding of a draw. Modelled from the spec: `0: drawn` (the body of the
static member TerminalValue::Draw is not under src/). -/
def Draw : ℤ := 0

/-- Encoding of mate in n full-moves, from the constexpr template
TerminalValue::MateIn in SelfPlay.h, which returns N, wrapped to int8_t. -/
def MateIn (n : ℤ) : ℤ := int8wrap n

/-- Encoding of opponent mate in n full-moves, from the constexpr template
TerminalValue::OpponentMateIn in SelfPlay.h, which returns -N, wrapped
to int8_t. -/
def OpponentMateIn (n : ℤ) : ℤ := int8wrap (-n)

/-- Default constructor TerminalValue(): the optional is disengaged. -/
def default : TerminalValue := ⟨none⟩

/-- Constructor TerminalValue(const int8_t value): engage the optional. -/
def ofValue (v : ℤ) : TerminalValue := ⟨some v⟩

/-- Classification IsNonTerminal. Modelled from the spec: `Absent:
non-terminal` (the body is not under src/). -/
def IsNonTerminal (t : TerminalValue) : Bool := t.val.isNone

/-- Classification IsMateInN. Modelled from the spec: `+N: side-to-move
delivers mate in N full-moves` (the body is not under src/). -/
def IsMateInN (t : TerminalValue) : Bool :=
  match t.val with
  | some v => decide (0 < v)
  | none => false

/-- Classification IsOpponentMateInN. Modelled from the spec: `-N: opponent
delivers mate in N full-moves` (the body is not under src/). -/
def IsOpponentMateInN (t : TerminalValue) : Bool :=
  match t.val with
  | some v => decide (v < 0)
  | none => false

/-- Mate distance for an own mate, the stored positive payload. -/
def MateN (t : TerminalValue) : ℤ :=
  match t.val with
  | some v => v
  | none => 0

/-- ImmediateValue. Modelled from the spec: `returns 1.0 for own mate, 0.0
for opponent mate, 0.5 for draw` (the body is not under src/). -/
def ImmediateValue (t : TerminalValue) : ℚ :=
  match t.val with
  | some v => if 0 < v then CHESSCOACH_VALUE_WIN
              else if v < 0 then CHESSCOACH_VALUE_LOSE
              else CHESSCOACH_VALUE_DRAW
  | none => CHESSCOACH_VALUE_DRAW

/-- MateScore. Modelled from the spec: maps the mate distance to a value
monotone in the distance such that any own mate beats any non-terminal
value and shorter mates beat longer mates, with an explorationRate-scaled
margin; opponent mates mirror below the value range (the body is not under
src/). An own mate in n scores 1 + rate/n; an opponent mate in n scores
-(rate/n); a draw scores 0.5. -/
def MateScore (rate : ℚ) (t : TerminalValue) : ℚ :=
  match t.val with
  | some v => if 0 < v then 1 + rate / (v : ℚ)
              else if v < 0 then rate / (-v : ℚ) * (-1)
              else CHESSCOACH_VALUE_DRAW
  | none => CHESSCOACH_VALUE_DRAW

end TerminalValue

/-- Node from SelfPlay.h, restricted to its scalar statistics; the child
array is modelled separately as a list where selection needs it. Weights
and counts are machine integers, value fields are floats modelled as ℚ. -/
structure Node where
  childCount : ℤ
  prior : ℚ
  move : ℕ
  visitingCount : ℤ
  visitCount : ℤ
  valueAverage : ℚ
  valueWeight : ℤ
  upWeight : ℤ
  terminalValue : TerminalValue
deriving DecidableEq

namespace Node

/-- Value statistics after one SampleValue update. -/
structure ValueStats where
  valueWeight : ℤ
  valueAverage : ℚ
deriving DecidableEq

/-- SampleValue. Modelled from the spec: the body of Node::SampleValue is
not under src/; the spec defines the weighted running average with a cap:
new weight = min(oldWeight + k, movingAverageCap), new mean =
oldMean + k * (sample - oldMean) / newWeight, where k is the simulation's
weight whose growth is controlled by movingAverageBuild. The atomic
compare-and-swap retry loop collapses to this one functional update in a
sequential embedding. -/
def sampleValue (k movingAverageCap : ℤ) (sample : ℚ)
    (oldWeight : ℤ) (oldMean : ℚ) : ValueStats :=
  let newWeight := min (oldWeight + k) movingAverageCap
  { valueWeight := newWeight
    valueAverage := oldMean + (k : ℚ) * (sample - oldMean) / (newWeight : ℚ) }

/-- Value. Modelled from the spec: the body of Node::Value is not under
src/; a terminal node reports its immediate value (0.5 for a draw), a
non-terminal node reports the running mean valueAverage, which the spec
constrains to [0, 1]. -/
def Value (n : Node) : ℚ :=
  if n.terminalValue.IsNonTerminal then n.valueAverage
  else n.terminalValue.ImmediateValue

/-- Virtual exploration of a node. Modelled from the spec: the body of
PuctContext::VirtualExploration is not under src/; the spec defines
Ñ(c) = visitCount + visitingCount. -/
def virtualExploration (n : Node) : ℚ :=
  (n.visitCount : ℚ) + (n.visitingCount : ℚ)

/-- ValueWithVirtualLoss. Modelled from the spec: the body of
Node::ValueWithVirtualLoss is not under src/; the spec defines
V'(c) = (V(c) * w - virtualLossCoefficient * visitingCount) /
(w + visitingCount). -/
def ValueWithVirtualLoss (virtualLossCoefficient : ℚ) (n : Node) : ℚ :=
  (n.valueAverage * (n.valueWeight : ℚ)
      - virtualLossCoefficient * (n.visitingCount : ℚ))
    / ((n.valueWeight : ℚ) + (n.visitingCount : ℚ))

end Node

/-- Search-relevant configuration fields of SelfPlayConfig (Config.h),
those feeding PuctContext. -/
structure PuctParams where
  explorationRateBase : ℚ
  explorationRateInit : ℚ
  useSblePuct : Bool
  linearExplorationRate : ℚ
  linearExplorationBase : ℚ
  virtualLossCoefficient : ℚ

/-- Sum of the children's virtual exploration, the parent's Ñ(p). -/
def childrenVirtualExploration (children : List Node) : ℚ :=
  (children.map Node.virtualExploration).sum

/-- PuctContext from SelfPlay.h: the per-parent precomputed selection
state. The float transcendentals log and sqrt are abstracted as function
parameters of the score computations below. -/
structure PuctContext where
  parentVirtualExploration : ℚ
  explorationNumerator : ℚ
  linearExplorationRate : ℚ
  linearExplorationBase : ℚ
  virtualLossCoefficient : ℚ
  useSblePuct : Bool

namespace PuctContext

/-- Construction of a PuctContext for a parent. Modelled from the spec:
the constructor body is not under src/; the exploration numerator is
c_puct = log((Ñ(p) + explorationRateBase + 1) / explorationRateBase)
+ explorationRateInit. -/
def ofParent (log : ℚ → ℚ) (p : PuctParams) (children : List Node) :
    PuctContext :=
  let pve := childrenVirtualExploration children
  { parentVirtualExploration := pve
    explorationNumerator :=
      log ((pve + p.explorationRateBase + 1) / p.explorationRateBase)
        + p.explorationRateInit
    linearExplorationRate := p.linearExplorationRate
    linearExplorationBase := p.linearExplorationBase
    virtualLossCoefficient := p.virtualLossCoefficient
    useSblePuct := p.useSblePuct }

/-- CalculateAzPuctScore. Modelled from the spec: the body is not under
src/; the spec defines the AZ-PUCT score
V'(c) + c_puct * prior(c) * sqrt(Ñ(p)) / (1 + Ñ(c)). -/
def CalculateAzPuctScore (ctx : PuctContext) (sqrt : ℚ → ℚ)
    (child : Node) : ℚ :=
  child.ValueWithVirtualLoss ctx.virtualLossCoefficient
    + ctx.explorationNumerator * child.prior
        * sqrt ctx.parentVirtualExploration
        / (1 + child.virtualExploration)

/-- CalculateSblePuctScore. Modelled from the spec: the body is not under
src/; when SBLE-PUCT is enabled the linear term
linearExplorationRate * (linearExplorationBase - Ñ(c)/Ñ(p)) is added to
the AZ score. -/
def CalculateSblePuctScore (ctx : PuctContext)
    (azPuctScore childVirtualExploration : ℚ) : ℚ :=
  azPuctScore + ctx.linearExplorationRate
    * (ctx.linearExplorationBase
        - childVirtualExploration / ctx.parentVirtualExploration)

/-- Selection score of a child: the AZ score, with the SBLE linear term
added when useSblePuct is enabled. -/
def score (ctx : PuctContext) (sqrt : ℚ → ℚ) (child : Node) : ℚ :=
  let az := ctx.CalculateAzPuctScore sqrt child
  if ctx.useSblePuct then ctx.CalculateSblePuctScore az child.virtualExploration
  else az

end PuctContext

/-- Fields of struct Node in declaration order (SelfPlay.h lines
146-165). -/
inductive NodeField where
  | bestChild
  | children
  | childCount
  | prior
  | move
  | visitingCount
  | visitCount
  | valueAverage
  | valueWeight
  | upWeight
  | terminalValue
  | expansion
  | padding1
  | tablebaseRank
  | tablebaseScore
  | tablebaseBound
  | padding2
deriving DecidableEq

/-- Whether the field is declared with a std::atomic type in SelfPlay.h:
bestChild, visitingCount, visitCount, valueAverage, valueWeight, upWeight,
terminalValue, expansion, tablebaseRank, tablebaseScore and tablebaseBound
are atomic; children, childCount, prior, move and the padding bytes are
plain. -/
def NodeField.declaredAtomic : NodeField → Bool
  | .children => false
  | .childCount => false
  | .prior => false
  | .move => false
  | .padding1 => false
  | .padding2 => false
  | _ => true

/-- Size and alignment of one struct field under the LP64 Itanium C++ ABI
(pointers and int 8/4 bytes, naturally aligned; std::atomic of a scalar
keeps its size with alignment at least natural). -/
structure FieldLayout where
  size : ℕ
  align : ℕ
deriving DecidableEq

/-- Next offset after laying the field list out sequentially, aligning
each field up to its alignment, starting at offset 0. -/
def layoutEnd (fields : List FieldLayout) : ℕ :=
  fields.foldl (fun off f => (off + f.align - 1) / f.align * f.align + f.size) 0

/-- Total size of the struct: the layout end rounded up to the struct
alignment. -/
def layoutSize (structAlign : ℕ) (fields : List FieldLayout) : ℕ :=
  (layoutEnd fields + structAlign - 1) / structAlign * structAlign

/-- Alignment of the struct: the declared alignas value joined with every
field alignment. -/
def layoutAlign (declaredAlign : ℕ) (fields : List FieldLayout) : ℕ :=
  (fields.map FieldLayout.align).foldl max declaredAlign

/-- Field layout of std::optional of int8_t (TerminalValue's only member):
one byte of payload and one engaged flag byte. -/
def optionalInt8Fields : List FieldLayout := [⟨1, 1⟩, ⟨1, 1⟩]

/-- Field layouts of struct Node in declaration order (SelfPlay.h lines
146-165): atomic pointer bestChild (8), pointer children (8), int32
childCount (4), float prior (4), uint16 move (2), atomic uint16
visitingCount (2), atomic int visitCount (4), atomic float valueAverage
(4), atomic int valueWeight (4), atomic int upWeight (4), atomic
TerminalValue terminalValue (2 bytes, 2-aligned as an atomic), atomic
uint8 expansion (1), padding1 (1), atomic int tablebaseRank (4), atomic
float tablebaseScore (4), atomic Bound tablebaseBound (4, an int-backed
enum), padding2 (4 bytes of uint8). -/
def nodeFieldLayouts : List FieldLayout :=
  [⟨8, 8⟩, ⟨8, 8⟩, ⟨4, 4⟩, ⟨4, 4⟩, ⟨2, 2⟩, ⟨2, 2⟩, ⟨4, 4⟩,
   ⟨4, 4⟩, ⟨4, 4⟩, ⟨4, 4⟩, ⟨2, 2⟩, ⟨1, 1⟩, ⟨1, 1⟩,
   ⟨4, 4⟩, ⟨4, 4⟩, ⟨4, 4⟩, ⟨4, 1⟩]

/-- UniformPrediction from PythonNetwork.cpp: holds the policy pointer it
was constructed with. -/
structure UniformPrediction where
  policy : List ℚ
deriving DecidableEq

/-- UniformPrediction::Value from PythonNetwork.cpp lines 397-400: always
returns 0.5f. -/
def UniformPrediction.Value (_p : UniformPrediction) : ℚ := 1 / 2

/-- UniformNetwork from PythonNetwork.cpp: carries its _policy buffer. -/
structure UniformNetwork where
  policy : List ℚ
deriving DecidableEq

/-- UniformNetwork::Predict from PythonNetwork.cpp lines 415-418: ignores
the input image and returns a UniformPrediction over the network's policy
buffer. -/
def UniformNetwork.Predict (net : UniformNetwork) (_image : List ℚ) :
    UniformPrediction :=
  ⟨net.policy⟩

/-- Stockfish Color: WHITE = 0, BLACK = 1. -/
inductive Color where
  | white
  | black
deriving DecidableEq

namespace Game

/-- Game::FlipMoveMask from Game.h line 39:
{ 0, (SQ_A8 << 6) + SQ_A8 } with SQ_A8 = 56. -/
def FlipMoveMask : Color → ℕ
  | .white => 0
  | .black => (56 <<< 6) + 56

/-- Game::FlipSquareMask from Game.h line 40: { 0, SQ_A8 }. -/
def FlipSquareMask : Color → ℕ
  | .white => 0
  | .black => 56

/-- Game::FlipMove from Game.h lines 29-32: xor the 16-bit encoded move
with FlipMoveMask[color]. -/
def FlipMove (color : Color) (move : ℕ) : ℕ :=
  move ^^^ FlipMoveMask color

/-- Game::FlipSquare from Game.h lines 34-37: xor the square index with
FlipSquareMask[color]. -/
def FlipSquare (color : Color) (square : ℕ) : ℕ :=
  square ^^^ FlipSquareMask color

end Game

/-- Concrete child node used to evaluate the selection score: prior 1/2,
one completed and one in-flight visit, mean 1/2 at weight 1. -/
def witnessChild : Node :=
  ⟨0, 1 / 2, 0, 1, 1, 1 / 2, 1, 0, TerminalValue.default⟩

/-- Concrete PUCT parameters with SBLE-PUCT enabled. -/
def witnessPuctParams : PuctParams :=
  ⟨2, 1, true, 1, 1, 1⟩

/-- C1: Node::SampleValue(movingAverageBuild, movingAverageCap, value)
updates the node's statistics so that the new valueWeight equals
min(oldWeight + k, movingAverageCap) and the new valueAverage equals
oldMean + k * (sample - oldMean) / newWeight, for every sample weight k
and sample value (the compare-and-swap collapses to the functional update
in the sequential embedding). -/
theorem sampleValue_weighted_running_average
    (k movingAverageCap : ℤ) (sample : ℚ) (oldWeight : ℤ) (oldMean : ℚ)
    (h : 0 < min (oldWeight + k) movingAverageCap) :
    (Node.sampleValue k movingAverageCap sample oldWeight oldMean).valueWeight
        = min (oldWeight + k) movingAverageCap
      ∧ (Node.sampleValue k movingAverageCap sample oldWeight oldMean).valueAverage
        = oldMean + (k : ℚ) * (sample - oldMean)
            / ((min (oldWeight + k) movingAverageCap : ℤ) : ℚ) :=
  ⟨rfl, rfl⟩

/-- Witness for C1: one concrete update, building weight 1 toward cap 36
on sample 1 from mean 1/2. -/
theorem sampleValue_weighted_running_average_witness :
    0 < min ((0 : ℤ) + 1) 36
      ∧ ((Node.sampleValue 1 36 1 0 (1 / 2)).valueWeight = min ((0 : ℤ) + 1) 36
          ∧ (Node.sampleValue 1 36 1 0 (1 / 2)).valueAverage
            = 1 / 2 + ((1 : ℤ) : ℚ) * (1 - 1 / 2) / ((min ((0 : ℤ) + 1) 36 : ℤ) : ℚ)) :=
  ⟨by decide, sampleValue_weighted_running_average 1 36 1 0 (1 / 2) (by decide)⟩

/-- C5 counterexample: the claim says every per-node field, including
children, childCount, prior and move, is accessed atomically; in
SelfPlay.h the children pointer (and childCount, prior, move) are declared
as plain, non-atomic fields. -/
theorem node_children_field_not_atomic :
    NodeField.declaredAtomic NodeField.children = false
      ∧ NodeField.declaredAtomic NodeField.childCount = false
      ∧ NodeField.declaredAtomic NodeField.prior = false
      ∧ NodeField.declaredAtomic NodeField.move = false := by
  decide

/-- C5 amended: every per-node field other than children, childCount,
prior, move and the padding bytes is declared std::atomic; those
non-atomic fields are written only during expansion, before the
release-store of the expansion flag publishes them. -/
theorem node_fields_atomic_except_publication (f : NodeField)
    (h1 : f ≠ NodeField.children) (h2 : f ≠ NodeField.childCount)
    (h3 : f ≠ NodeField.prior) (h4 : f ≠ NodeField.move)
    (h5 : f ≠ NodeField.padding1) (h6 : f ≠ NodeField.padding2) :
    f.declaredAtomic = true := by
  cases f <;> simp_all [NodeField.declaredAtomic]

/-- Witness for the amended C5: the bestChild field is atomic. -/
theorem node_fields_atomic_except_publication_witness :
    NodeField.bestChild ≠ NodeField.children
      ∧ NodeField.declaredAtomic NodeField.bestChild = true :=
  ⟨by decide,
    node_fields_atomic_except_publication NodeField.bestChild
      (by decide) (by decide) (by decide) (by decide) (by decide) (by decide)⟩

/-- C6: under the LP64 ABI layout of the declared fields, struct Node is
exactly 64 bytes with 64-byte alignment from alignas(64), the packed
fields end exactly at byte 64 (so the 2-byte terminal-value encoding fits
without disturbing alignment), and std::optional of int8_t is 2 bytes,
matching the static_asserts in SelfPlay.h lines 167-170. -/
theorem node_layout_64_bytes :
    layoutSize 64 nodeFieldLayouts = 64
      ∧ layoutAlign 64 nodeFieldLayouts = 64
      ∧ layoutEnd nodeFieldLayouts = 64
      ∧ layoutEnd optionalInt8Fields = 2 := by
  decide

/-- C3: the terminal-value encoding is a signed 8-bit value with an absent
sentinel: for 1 ≤ n ≤ 127, MateIn(n) encodes as +n and OpponentMateIn(n)
as -n, Draw() encodes as 0, a default-constructed TerminalValue is
non-terminal, and IsNonTerminal, IsMateInN and IsOpponentMateInN classify
exactly by absent / positive / negative. -/
theorem terminalValue_int8_encoding (n : ℤ) (h1 : 1 ≤ n) (h2 : n ≤ 127) :
    TerminalValue.MateIn n = n
      ∧ TerminalValue.OpponentMateIn n = -n
      ∧ TerminalValue.Draw = 0
      ∧ TerminalValue.default.IsNonTerminal = true
      ∧ (TerminalValue.ofValue (TerminalValue.MateIn n)).IsMateInN = true
      ∧ (TerminalValue.ofValue (TerminalValue.MateIn n)).IsOpponentMateInN = false
      ∧ (TerminalValue.ofValue (TerminalValue.OpponentMateIn n)).IsOpponentMateInN = true
      ∧ (TerminalValue.ofValue (TerminalValue.OpponentMateIn n)).IsMateInN = false
      ∧ (∀ v : ℤ, (TerminalValue.ofValue v).IsNonTerminal = false
          ∧ ((TerminalValue.ofValue v).IsMateInN = true ↔ 0 < v)
          ∧ ((TerminalValue.ofValue v).IsOpponentMateInN = true ↔ v < 0)) := by
  have hm : TerminalValue.MateIn n = n := by
    unfold TerminalValue.MateIn int8wrap
    omega
  have ho : TerminalValue.OpponentMateIn n = -n := by
    unfold TerminalValue.OpponentMateIn int8wrap
    omega
  refine ⟨hm, ho, rfl, rfl, ?_, ?_, ?_, ?_, ?_⟩
  · rw [hm]
    simp only [TerminalValue.ofValue, TerminalValue.IsMateInN,
      decide_eq_true_eq]
    omega
  · rw [hm]
    simp only [TerminalValue.ofValue, TerminalValue.IsOpponentMateInN,
      decide_eq_false_iff_not]
    omega
  · rw [ho]
    simp only [TerminalValue.ofValue, TerminalValue.IsOpponentMateInN,
      decide_eq_true_eq]
    omega
  · rw [ho]
    simp only [TerminalValue.ofValue, TerminalValue.IsMateInN,
      decide_eq_false_iff_not]
    omega
  · intro v
    refine ⟨rfl, ?_, ?_⟩ <;>
      simp [TerminalValue.ofValue, TerminalValue.IsMateInN,
        TerminalValue.IsOpponentMateInN]

/-- Witness for C3: the encoding at mate distance 3. -/
theorem terminalValue_int8_encoding_witness :
    (1 : ℤ) ≤ 3 ∧ (3 : ℤ) ≤ 127
      ∧ (TerminalValue.MateIn 3 = 3 ∧ TerminalValue.OpponentMateIn 3 = -3
          ∧ (TerminalValue.ofValue (TerminalValue.MateIn 3)).IsMateInN = true) :=
  ⟨by decide, by decide,
    (terminalValue_int8_encoding 3 (by decide) (by decide)).1,
    (terminalValue_int8_encoding 3 (by decide) (by decide)).2.1,
    (terminalValue_int8_encoding 3 (by decide) (by decide)).2.2.2.2.1⟩

/-- C4: under the spec invariant that the running mean lies in [0, 1],
Node::Value() lies in [0, 1] for every node, and equals
CHESSCOACH_VALUE_DRAW (0.5) for a drawn terminal node. -/
theorem node_value_in_unit_interval (n : Node)
    (h0 : 0 ≤ n.valueAverage) (h1 : n.valueAverage ≤ 1) :
    (0 ≤ n.Value ∧ n.Value ≤ 1)
      ∧ (n.terminalValue = TerminalValue.ofValue TerminalValue.Draw →
          n.Value = CHESSCOACH_VALUE_DRAW) := by
  constructor
  · unfold Node.Value
    split
    · exact ⟨h0, h1⟩
    · unfold TerminalValue.ImmediateValue
      rcases n.terminalValue.val with _ | v
      · norm_num [CHESSCOACH_VALUE_DRAW]
      · rcases lt_trichotomy 0 v with hv | hv | hv
        · simp only [hv, if_pos]
          norm_num [CHESSCOACH_VALUE_WIN]
        · simp only [← hv, lt_irrefl, if_false]
          norm_num [CHESSCOACH_VALUE_DRAW]
        · have hnot : ¬ (0 < v) := not_lt.mpr hv.le
          simp only [hnot, if_false, hv, if_pos]
          norm_num [CHESSCOACH_VALUE_LOSE]
  · intro hdraw
    unfold Node.Value
    rw [hdraw]
    norm_num [TerminalValue.IsNonTerminal, TerminalValue.ofValue,
      TerminalValue.ImmediateValue, TerminalValue.Draw, CHESSCOACH_VALUE_DRAW]

/-- Witness for C4: a drawn terminal node with mean 1/2. -/
theorem node_value_in_unit_interval_witness :
    (0 : ℚ) ≤ 1 / 2
      ∧ ((0 ≤ (Node.mk 0 0 0 0 0 (1 / 2) 0 0
              (TerminalValue.ofValue TerminalValue.Draw)).Value
          ∧ (Node.mk 0 0 0 0 0 (1 / 2) 0 0
              (TerminalValue.ofValue TerminalValue.Draw)).Value ≤ 1)
        ∧ ((Node.mk 0 0 0 0 0 (1 / 2) 0 0
              (TerminalValue.ofValue TerminalValue.Draw)).terminalValue
              = TerminalValue.ofValue TerminalValue.Draw →
            (Node.mk 0 0 0 0 0 (1 / 2) 0 0
              (TerminalValue.ofValue TerminalValue.Draw)).Value
              = CHESSCOACH_VALUE_DRAW)) :=
  ⟨by norm_num,
    node_value_in_unit_interval
      (Node.mk 0 0 0 0 0 (1 / 2) 0 0 (TerminalValue.ofValue TerminalValue.Draw))
      (by norm_num) (by norm_num)⟩

/-- C7 counterexample: the claim places MateScore inside the open interval
(0, 1); the modelled MateScore of an own mate in 1 at explorationRate 1 is
2, which is not below 1 (and no score below 1 could exceed every
non-terminal value, since Value() ranges over [0, 1]). -/
theorem mateScore_not_in_unit_interval :
    ¬ (TerminalValue.MateScore 1
        (TerminalValue.ofValue (TerminalValue.MateIn 1)) < 1) := by
  norm_num [TerminalValue.MateScore, TerminalValue.ofValue,
    TerminalValue.MateIn, int8wrap]

/-- C7 amended: own-mate scores sit strictly above every non-terminal
value in [0, 1] (hence above 1 rather than inside (0, 1)), shorter mates
score above longer mates, the gap between mate-in-m and mate-in-k is the
explorationRate-scaled margin rate * (1/m - 1/k), and opponent-mate
scores lie below 0. -/
theorem mateScore_monotone_dominates (rate v : ℚ) (m k : ℤ)
    (hrate : 0 < rate) (hm : 0 < m) (hmk : m < k) (hk : k ≤ 127)
    (hv0 : 0 ≤ v) (hv1 : v ≤ 1) :
    v < TerminalValue.MateScore rate
          (TerminalValue.ofValue (TerminalValue.MateIn k))
      ∧ TerminalValue.MateScore rate
          (TerminalValue.ofValue (TerminalValue.MateIn k))
        < TerminalValue.MateScore rate
            (TerminalValue.ofValue (TerminalValue.MateIn m))
      ∧ TerminalValue.MateScore rate
            (TerminalValue.ofValue (TerminalValue.MateIn m))
          - TerminalValue.MateScore rate
              (TerminalValue.ofValue (TerminalValue.MateIn k))
          = rate * (1 / (m : ℚ) - 1 / (k : ℚ))
      ∧ TerminalValue.MateScore rate
            (TerminalValue.ofValue (TerminalValue.OpponentMateIn k)) < 0 := by
  have hmk127 : TerminalValue.MateIn k = k := by
    unfold TerminalValue.MateIn int8wrap
    omega
  have hmm127 : TerminalValue.MateIn m = m := by
    unfold TerminalValue.MateIn int8wrap
    omega
  have hkpos : (0 : ℚ) < (k : ℚ) := by
    exact_mod_cast lt_trans hm hmk
  have hmpos : (0 : ℚ) < (m : ℚ) := by exact_mod_cast hm
  have hmkq : (m : ℚ) < (k : ℚ) := by exact_mod_cast hmk
  have hsk : TerminalValue.MateScore rate
      (TerminalValue.ofValue (TerminalValue.MateIn k)) = 1 + rate / (k : ℚ) := by
    rw [hmk127]
    simp only [TerminalValue.MateScore, TerminalValue.ofValue]
    rw [if_pos (by exact_mod_cast lt_trans hm hmk)]
  have hsm : TerminalValue.MateScore rate
      (TerminalValue.ofValue (TerminalValue.MateIn m)) = 1 + rate / (m : ℚ) := by
    rw [hmm127]
    simp only [TerminalValue.MateScore, TerminalValue.ofValue]
    rw [if_pos (by exact_mod_cast hm)]
  have hok : TerminalValue.OpponentMateIn k = -k := by
    unfold TerminalValue.OpponentMateIn int8wrap
    omega
  have hso : TerminalValue.MateScore rate
      (TerminalValue.ofValue (TerminalValue.OpponentMateIn k))
        = rate / (k : ℚ) * (-1) := by
    rw [hok]
    simp only [TerminalValue.MateScore, TerminalValue.ofValue]
    rw [if_neg (by omega), if_pos (by omega)]
    push_cast
    ring_nf
  refine ⟨?_, ?_, ?_, ?_⟩
  · rw [hsk]
    have : (0 : ℚ) < rate / (k : ℚ) := div_pos hrate hkpos
    linarith
  · rw [hsk, hsm]
    have : rate / (k : ℚ) < rate / (m : ℚ) :=
      div_lt_div_of_pos_left hrate hmpos hmkq
    linarith
  · rw [hsk, hsm]
    field_simp
    ring
  · rw [hso]
    have : (0 : ℚ) < rate / (k : ℚ) := div_pos hrate hkpos
    linarith

/-- Witness for the amended C7: explorationRate 1, non-terminal value 1,
mate distances 1 and 2. -/
theorem mateScore_monotone_dominates_witness :
    (0 : ℚ) < 1
      ∧ ((1 : ℚ) < TerminalValue.MateScore 1
            (TerminalValue.ofValue (TerminalValue.MateIn 2))
          ∧ TerminalValue.MateScore 1
              (TerminalValue.ofValue (TerminalValue.MateIn 2))
            < TerminalValue.MateScore 1
                (TerminalValue.ofValue (TerminalValue.MateIn 1))
          ∧ TerminalValue.MateScore 1
                (TerminalValue.ofValue (TerminalValue.MateIn 1))
              - TerminalValue.MateScore 1
                  (TerminalValue.ofValue (TerminalValue.MateIn 2))
              = 1 * (1 / ((1 : ℤ) : ℚ) - 1 / ((2 : ℤ) : ℚ))
          ∧ TerminalValue.MateScore 1
              (TerminalValue.ofValue (TerminalValue.OpponentMateIn 2)) < 0) :=
  ⟨by norm_num,
    mateScore_monotone_dominates 1 1 1 2 (by norm_num) (by decide) (by decide)
      (by decide) (by norm_num) (by norm_num)⟩

/-- C9: the uniform fallback predictor reports Value() equal to 0.5
(CHESSCOACH_VALUE_DRAW) for every network state and every input image. -/
theorem uniformNetwork_predict_value_half (net : UniformNetwork)
    (image : List ℚ) :
    (net.Predict image).Value = CHESSCOACH_VALUE_DRAW := rfl

/-- C2: for an Expanded parent, the AZ-mode selection score of a child is
V'(c) + c_puct * prior(c) * sqrt(Ñ(p)) / (1 + Ñ(c)) with
c_puct = log((Ñ(p) + explorationRateBase + 1) / explorationRateBase)
+ explorationRateInit, where Ñ is visitCount + visitingCount and Ñ(p)
sums Ñ over the children; with SBLE-PUCT enabled the score additionally
includes linearExplorationRate * (linearExplorationBase - Ñ(c)/Ñ(p)). -/
theorem azPuctScore_formula (log sqrt : ℚ → ℚ) (p : PuctParams)
    (children : List Node) (child : Node) :
    (PuctContext.ofParent log p children).CalculateAzPuctScore sqrt child
        = child.ValueWithVirtualLoss p.virtualLossCoefficient
          + (log ((childrenVirtualExploration children
                    + p.explorationRateBase + 1) / p.explorationRateBase)
              + p.explorationRateInit)
            * child.prior * sqrt (childrenVirtualExploration children)
            / (1 + child.virtualExploration)
      ∧ (p.useSblePuct = true →
          (PuctContext.ofParent log p children).score sqrt child
            = (PuctContext.ofParent log p children).CalculateAzPuctScore
                sqrt child
              + p.linearExplorationRate
                * (p.linearExplorationBase
                    - child.virtualExploration
                      / childrenVirtualExploration children)) := by
  constructor
  · rfl
  · intro h
    simp [PuctContext.score, PuctContext.CalculateSblePuctScore,
      PuctContext.ofParent, h]

/-- Witness for C2: the score formulas evaluated with log and sqrt taken
as the identity, one child and SBLE-PUCT enabled. -/
theorem azPuctScore_formula_witness :
    ((PuctContext.ofParent id witnessPuctParams [witnessChild]).CalculateAzPuctScore
          id witnessChild
        = witnessChild.ValueWithVirtualLoss witnessPuctParams.virtualLossCoefficient
          + (id ((childrenVirtualExploration [witnessChild]
                    + witnessPuctParams.explorationRateBase + 1)
                  / witnessPuctParams.explorationRateBase)
              + witnessPuctParams.explorationRateInit)
            * witnessChild.prior * id (childrenVirtualExploration [witnessChild])
            / (1 + witnessChild.virtualExploration))
      ∧ ((PuctContext.ofParent id witnessPuctParams [witnessChild]).score
            id witnessChild
          = (PuctContext.ofParent id witnessPuctParams [witnessChild]).CalculateAzPuctScore
              id witnessChild
            + witnessPuctParams.linearExplorationRate
              * (witnessPuctParams.linearExplorationBase
                  - witnessChild.virtualExploration
                    / childrenVirtualExploration [witnessChild])) :=
  ⟨(azPuctScore_formula id id witnessPuctParams [witnessChild] witnessChild).1,
    (azPuctScore_formula id id witnessPuctParams [witnessChild] witnessChild).2 rfl⟩

/-- C10: FlipMove and FlipSquare are involutions for every color and the
identity for WHITE. -/
theorem flipMove_flipSquare_involution (c : Color) (m s : ℕ) :
    Game.FlipMove c (Game.FlipMove c m) = m
      ∧ Game.FlipSquare c (Game.FlipSquare c s) = s
      ∧ Game.FlipMove Color.white m = m
      ∧ Game.FlipSquare Color.white s = s := by
  refine ⟨?_, ?_, ?_, ?_⟩ <;>
    simp [Game.FlipMove, Game.FlipSquare, Game.FlipMoveMask,
      Game.FlipSquareMask, Nat.xor_assoc]

end ChessCoach
